import Mathlib

/-
Verification of the cold-agent core: the decision loop (agentLoop), the
action-response normalizer (parseActionResponse), and the run evaluator
(evaluator.ts), shallowly embedded from the TypeScript source.

Conventions of the embedding:
* JavaScript strings are Lean String values; all inputs of interest are ASCII.
* JSON numbers are modelled as Int (the source only manipulates integral
  numbers such as wait milliseconds and step indices).
* JavaScript objects are modelled as ordered association lists with unique
  keys; property access, spread and delete are modelled by objGet, objMerge
  and objDelete below.
* Thrown exceptions are modelled with Except String.
* URL values produced by the platform URL constructor are modelled as a
  record of the href, pathname and search components.
* Date.now timestamps are modelled as Nat epoch milliseconds; the ISO
  round trip through the string timestamp is modelled as the identity.
-/

namespace ColdAgent

/-! ## String helpers (JavaScript semantics) -/

/-- Does the needle occur at the start of the hay (list-of-chars form)? -/
def firstMatches : List Char → List Char → Bool
  | [], _ => true
  | _ :: _, [] => false
  | n :: ns, h :: hs => n == h && firstMatches ns hs

/-- Substring occurrence test on lists of characters. -/
def containsSeq (needle : List Char) : List Char → Bool
  | [] => firstMatches needle []
  | c :: rest => firstMatches needle (c :: rest) || containsSeq needle rest

/-- Model of String.prototype.toLowerCase (character-wise; inputs here are
ASCII).  Defined over the character list so that proofs evaluate. -/
def strToLower (s : String) : String :=
  String.mk (s.data.map Char.toLower)

/-- Model of JavaScript String.prototype.includes. -/
def strIncludes (hay needle : String) : Bool :=
  containsSeq needle.data hay.data

/-! ## Word-boundary regex matching

The destructive patterns in agentLoop.ts are regexes of the shape
/\bword\b/i or /\bword1\s+word2\b/i.  We model exactly this class:
a match is an occurrence of the keyword (one or more space-separated
words) delimited by word boundaries. -/

/-- JavaScript regex word character class \w = [A-Za-z0-9_]. -/
def isWordChar (c : Char) : Bool :=
  c.isAlpha || c.isDigit || c == '_'

/-- JavaScript regex whitespace class \s (ASCII part). -/
def isJsSpace (c : Char) : Bool :=
  c == ' ' || c == '\t' || c == '\n' || c == '\r' || c == '\x0b' || c == '\x0c'

/-- If the pattern word is a literal start of the text, return the rest. -/
def dropExact : List Char → List Char → Option (List Char)
  | [], t => Option.some t
  | _ :: _, [] => Option.none
  | p :: ps, c :: cs => if p == c then dropExact ps cs else Option.none

/-- Drop a maximal run of whitespace characters. -/
def dropSpacesMany : List Char → List Char
  | [] => []
  | c :: cs => if isJsSpace c then dropSpacesMany cs else c :: cs

/-- Drop one-or-more whitespace characters (the \s+ separator). -/
def dropSpacesOnePlus : List Char → Option (List Char)
  | [] => Option.none
  | c :: cs => if isJsSpace c then Option.some (dropSpacesMany cs) else Option.none

/-- Match the word sequence (with \s+ separators) at the head of the text,
returning the remaining text on success. -/
def matchWordsHere : List (List Char) → List Char → Option (List Char)
  | [], t => Option.some t
  | [w], t => dropExact w t
  | w :: ws, t =>
    match dropExact w t with
    | Option.none => Option.none
    | Option.some r =>
      match dropSpacesOnePlus r with
      | Option.none => Option.none
      | Option.some r2 => matchWordsHere ws r2

/-- Word boundary before the match: start of string or a non-word char. -/
def headBoundary : Option Char → Bool
  | Option.none => true
  | Option.some c => !isWordChar c

/-- Word boundary after the match: end of string or a non-word char. -/
def tailBoundary : Option (List Char) → Bool
  | Option.none => false
  | Option.some [] => true
  | Option.some (c :: _) => !isWordChar c

/-- Scan the text for a boundary-delimited occurrence of the word sequence;
prev is the character just before the current position. -/
def testPatternFrom (ws : List (List Char)) : Option Char → List Char → Bool
  | prev, [] => headBoundary prev && tailBoundary (matchWordsHere ws [])
  | prev, c :: rest =>
    (headBoundary prev && tailBoundary (matchWordsHere ws (c :: rest)))
      || testPatternFrom ws (Option.some c) rest

/-- Test a \b..\b word-sequence regex against a string. -/
def regexTestWords (ws : List String) (s : String) : Bool :=
  testPatternFrom (ws.map String.data) Option.none s.data

/-! ## Action data model (types.ts) -/

inductive ScrollDirection where
  | up
  | down
  deriving DecidableEq, Repr

inductive AgentAction where
  | click (target : String)
  | fill (target value : String)
  | select (target option : String)
  | scroll (direction : ScrollDirection)
  | back
  | wait (ms : Int)
  | search (query : String)
  | openHelp
  | done (reason : String) (evidenceSteps : List Int)
  deriving DecidableEq, Repr

instance : DecidableEq (Except String AgentAction) :=
  fun a b =>
    match a, b with
    | Except.ok x, Except.ok y =>
      if h : x = y then Decidable.isTrue (by rw [h]) else Decidable.isFalse (by simp [h])
    | Except.error x, Except.error y =>
      if h : x = y then Decidable.isTrue (by rw [h]) else Decidable.isFalse (by simp [h])
    | Except.ok _, Except.error _ => Decidable.isFalse (by simp)
    | Except.error _, Except.ok _ => Decidable.isFalse (by simp)

/-! ## Destructive action gate (agentLoop.ts, DESTRUCTIVE_PATTERNS and
isDestructiveAction) -/

/-- The ten regexes of DESTRUCTIVE_PATTERNS, as word sequences; each source
regex is /\bw\b/i or /\bw1\s+w2\b/i.  Case-insensitivity is modelled by
matching the lower-case patterns against lower-cased inputs. -/
def DESTRUCTIVE_PATTERNS : List (List String) :=
  [["delete"], ["remove"], ["cancel", "subscription"], ["unsubscribe"],
   ["close", "account"], ["deactivate"], ["terminate"], ["destroy"],
   ["erase"], ["permanently"]]

def isDestructiveAction (action : AgentAction) (goal : String) : Bool :=
  match action with
  | AgentAction.click target =>
    let t := strToLower target
    let goalLower := strToLower goal
    DESTRUCTIVE_PATTERNS.any fun p => regexTestWords p t && !(regexTestWords p goalLower)
  | _ => false

/-- Stated from the claim wording only (for comparison with the source
function isDestructiveAction): case-insensitive SUBSTRING match of the
destructive keywords against the target, with the goal not matching the
same keyword. -/
def specDestructiveSubstring (target goal : String) : Bool :=
  ["delete", "remove", "cancel subscription", "unsubscribe", "close account",
   "deactivate", "terminate", "destroy", "erase", "permanently"].any
    fun k => strIncludes (strToLower target) k && !(strIncludes (strToLower goal) k)

/-! ## JSON values and JavaScript object operations -/

inductive Json where
  | null
  | bool (b : Bool)
  | num (n : Int)
  | str (s : String)
  | arr (elems : List Json)
  | obj (fields : List (String × Json))

/-- A JavaScript object: an ordered association list with unique keys. -/
abbrev JsonObj := List (String × Json)

/-- Property access; Option.none models the undefined value. -/
def objGet : JsonObj → String → Option Json
  | [], _ => Option.none
  | (k, v) :: rest, key => if k == key then Option.some v else objGet rest key

/-- The delete operator. -/
def objDelete (o : JsonObj) (key : String) : JsonObj :=
  o.filter fun kv => !(kv.1 == key)

/-- Property assignment (existing key is overwritten). -/
def objSet (o : JsonObj) (key : String) (v : Json) : JsonObj :=
  objDelete o key ++ [(key, v)]

/-- The object spread: merge the extra fields into the base, later keys
overwriting earlier ones (models the braces-spread object literal). -/
def objMerge (base : JsonObj) : JsonObj → JsonObj
  | [] => base
  | (k, v) :: rest => objMerge (objSet base k v) rest

/-- JavaScript truthiness of a value. -/
def jsTruthy : Json → Bool
  | Json.null => false
  | Json.bool b => b
  | Json.num n => !(n == 0)
  | Json.str s => !(s == "")
  | Json.arr _ => true
  | Json.obj _ => true

/-- Truthiness of a possibly-undefined value. -/
def jsTruthyOpt : Option Json → Bool
  | Option.none => false
  | Option.some v => jsTruthy v

/-- The nullish-coalescing operator a ?? b for property accesses. -/
def jsCoalesce : Option Json → Option Json → Option Json
  | Option.some Json.null, b => b
  | Option.none, b => b
  | Option.some v, _ => Option.some v

/-- The logical-or a || b for property accesses (first truthy wins). -/
def jsOrOpt : Option Json → Option Json → Option Json
  | Option.some v, b => if jsTruthy v then Option.some v else b
  | Option.none, b => b

/-- JavaScript String() conversion.  Arrays stringify as the comma join of
their elements; objects as the object-Object tag. -/
def jsToString : Json → String
  | Json.null => "null"
  | Json.bool true => "true"
  | Json.bool false => "false"
  | Json.num n => toString n
  | Json.str s => s
  | Json.arr elems => String.intercalate "," (jsToStringList elems)
  | Json.obj _ => "[object Object]"
where
  jsToStringList : List Json → List String
  | [] => []
  | x :: xs => jsToString x :: jsToStringList xs

/-- Escape one character for JSON.stringify output. -/
def escapeJsonChar (c : Char) : String :=
  if c == '"' then "\\\""
  else if c == '\\' then "\\\\"
  else if c == '\n' then "\\n"
  else if c == '\t' then "\\t"
  else if c == '\r' then "\\r"
  else String.singleton c

/-- JSON.stringify (no indentation; undefined members do not arise here). -/
def jsonStringify : Json → String
  | Json.null => "null"
  | Json.bool true => "true"
  | Json.bool false => "false"
  | Json.num n => toString n
  | Json.str s => "\"" ++ String.join (s.data.map escapeJsonChar) ++ "\""
  | Json.arr elems => "[" ++ String.intercalate "," (stringifyElems elems) ++ "]"
  | Json.obj fields => "\x7b" ++ String.intercalate "," (stringifyFields fields) ++ "\x7d"
where
  stringifyElems : List Json → List String
    | [] => []
    | x :: xs => jsonStringify x :: stringifyElems xs
  stringifyFields : List (String × Json) → List String
    | [] => []
    | (k, v) :: xs =>
      ("\"" ++ String.join (k.data.map escapeJsonChar) ++ "\":" ++ jsonStringify v)
        :: stringifyFields xs

/-- JSON.stringify of a possibly-undefined value, as it renders inside a
template literal (undefined prints as the word undefined). -/
def jsonStringifyOpt : Option Json → String
  | Option.none => "undefined"
  | Option.some v => jsonStringify v

/-- Parse a string the way Number() does for plain decimal integers;
Option.none models NaN.  The empty string converts to 0 in JavaScript. -/
def jsParseNumber (s : String) : Option Int :=
  if s == "" then Option.some 0
  else if s.data.all Char.isDigit then Option.some (toDigitsVal s.data 0)
  else if s.data.head? == Option.some '-' && s.data.tail ≠ [] && (s.data.tail).all Char.isDigit then
    Option.some (-(toDigitsVal s.data.tail 0))
  else Option.none
where
  toDigitsVal : List Char → Int → Int
    | [], acc => acc
    | c :: cs, acc => toDigitsVal cs (acc * 10 + (Int.ofNat (c.toNat - '0'.toNat)))

/-- Model of Number(x) for the JSON values that can appear here.  Arrays and
objects mostly coerce to NaN (single-element arrays are an exotic exception
not modelled; no caller produces them). -/
def jsNumber : Option Json → Option Int
  | Option.none => Option.none
  | Option.some (Json.num n) => Option.some n
  | Option.some (Json.str s) => jsParseNumber s
  | Option.some (Json.bool b) => Option.some (if b then 1 else 0)
  | Option.some Json.null => Option.some 0
  | Option.some (Json.arr _) => Option.none
  | Option.some (Json.obj _) => Option.none

/-- Model of the expression Number(x) || 1000: NaN and 0 both fall back. -/
def jsNumberOrDefault (v : Option Json) : Int :=
  match jsNumber v with
  | Option.some n => if n == 0 then 1000 else n
  | Option.none => 1000

/-- Number() coercion with NaN modelled as 0 (used only for the
evidence-step list, whose entries are expected to be numbers). -/
def jsNumberForce (j : Json) : Int :=
  match jsNumber (Option.some j) with
  | Option.some n => n
  | Option.none => 0

/-! ## Action response normalizer (agentLoop.ts, parseActionResponse)

The text-level stages of parseActionResponse (code-fence stripping, the
greedy brace regex and JSON.parse) belong to the platform; the embedding
starts from the parsed top-level JSON object and follows the source
line by line from the line reading parsed.action. -/

def actionTypeNames : List String :=
  ["click", "fill", "select", "scroll", "back", "wait", "search", "openHelp", "done"]

/-- The getProperty helper: first key whose property is not undefined. -/
def getProp (o : JsonObj) : List String → Option Json
  | [] => Option.none
  | k :: ks =>
    match objGet o k with
    | Option.some v => Option.some v
    | Option.none => getProp o ks

/-- One case of the nested-format scan: the payload found under an
action-type key is folded into a flat action object. -/
def applyNestedShape (tname : String) (nested : Json) : JsonObj :=
  match nested with
  | Json.str s =>
    if tname == "click" then [("type", Json.str tname), ("target", Json.str s)]
    else if tname == "search" then [("type", Json.str tname), ("query", Json.str s)]
    else if tname == "scroll" then [("type", Json.str tname), ("direction", Json.str s)]
    else [("type", Json.str tname), ("target", Json.str s)]
  | Json.obj o => objMerge [("type", Json.str tname)] o
  | Json.arr xs =>
    -- spreading an array into an object yields index-named fields
    objMerge [("type", Json.str tname)]
      (((List.range xs.length).zip xs).map fun p => (toString p.1, p.2))
  | _ => [("type", Json.str tname)]

/-- Scan the nine action-type names in order; the first present key wins. -/
def scanTypesAux : List String → JsonObj → JsonObj
  | [], fields => fields
  | t :: ts, fields =>
    match objGet fields t with
    | Option.some nested => applyNestedShape t nested
    | Option.none => scanTypesAux ts fields

/-- Final dispatch on the action type string (the switch statement). -/
def dispatchAction (fields : JsonObj) (tv : Json) : Except String AgentAction :=
  match tv with
  | Json.str s =>
    if s == "click" then
      let target := getProp fields ["target", "element", "ref", "selector", "text"]
      if !jsTruthyOpt target then
        Except.error ("Click action missing target: " ++ jsonStringify (Json.obj fields))
      else
        match target with
        | Option.some v => Except.ok (AgentAction.click (jsToString v))
        | Option.none => Except.error ("Click action missing target: " ++ jsonStringify (Json.obj fields))
    else if s == "fill" then
      let target := getProp fields ["target", "element", "ref", "selector", "field"]
      let value := getProp fields ["value", "text", "input"]
      if !jsTruthyOpt target || value.isNone then
        Except.error ("Fill action missing target/value: " ++ jsonStringify (Json.obj fields))
      else
        match target, value with
        | Option.some tv2, Option.some vv =>
          Except.ok (AgentAction.fill (jsToString tv2) (jsToString vv))
        | _, _ => Except.error ("Fill action missing target/value: " ++ jsonStringify (Json.obj fields))
    else if s == "select" then
      let target := getProp fields ["target", "element", "ref", "selector"]
      let opt := getProp fields ["option", "value", "choice"]
      if !jsTruthyOpt target || !jsTruthyOpt opt then
        Except.error ("Select action missing target/option: " ++ jsonStringify (Json.obj fields))
      else
        match target, opt with
        | Option.some tv2, Option.some ov =>
          Except.ok (AgentAction.select (jsToString tv2) (jsToString ov))
        | _, _ => Except.error ("Select action missing target/option: " ++ jsonStringify (Json.obj fields))
    else if s == "scroll" then
      let dir :=
        match objGet fields "direction" with
        | Option.some (Json.str d) => if d == "up" then ScrollDirection.up else ScrollDirection.down
        | _ => ScrollDirection.down
      Except.ok (AgentAction.scroll dir)
    else if s == "back" then
      Except.ok AgentAction.back
    else if s == "wait" then
      Except.ok (AgentAction.wait (min 5000 (max 100 (jsNumberOrDefault (objGet fields "ms")))))
    else if s == "search" then
      let query := getProp fields ["query", "term", "text", "input", "value"]
      if !jsTruthyOpt query then
        Except.error ("Search action missing query: " ++ jsonStringify (Json.obj fields))
      else
        match query with
        | Option.some qv => Except.ok (AgentAction.search (jsToString qv))
        | Option.none => Except.error ("Search action missing query: " ++ jsonStringify (Json.obj fields))
    else if s == "openHelp" then
      Except.ok AgentAction.openHelp
    else if s == "done" then
      let reasonV := getProp fields ["reason", "message", "explanation"]
      let reason :=
        match reasonV with
        | Option.some v => if jsTruthy v then jsToString v else "Task completed"
        | Option.none => "Task completed"
      let evidenceSteps :=
        match objGet fields "evidenceSteps" with
        | Option.some (Json.arr xs) => xs.map jsNumberForce
        | _ => []
      Except.ok (AgentAction.done reason evidenceSteps)
    else
      Except.error ("Unknown action type: " ++ s)
  | other => Except.error ("Unknown action type: " ++ jsToString other)

/-- The normalizer body of parseActionResponse, from the parsed top-level
JSON object to a canonical action or a descriptive failure. -/
def normalizeAction (parsed : JsonObj) : Except String AgentAction :=
  -- let action = parsed.action ?? parsed.command
  let action0 : Option Json := jsCoalesce (objGet parsed "action") (objGet parsed "command")
  -- flat format: the type is the string in the action/command key itself
  let action1 : Option Json :=
    match action0 with
    | Option.some (Json.str s) =>
      let a := objMerge [("type", Json.str s)] parsed
      let a := objDelete a "action"
      let a := objDelete a "command"
      let a := if jsTruthyOpt (objGet parsed "thinking") then objDelete a "thinking" else a
      Option.some (Json.obj a)
    | o => o
  -- double-nested format: an inner action/command key holding the type
  let action2 : Option Json :=
    match action1 with
    | Option.some (Json.obj o) =>
      if jsTruthyOpt (jsOrOpt (objGet o "action") (objGet o "command")) then
        match jsCoalesce (objGet o "action") (objGet o "command") with
        | Option.some (Json.str s) =>
          let a := objMerge [("type", Json.str s)] o
          let a := objDelete a "action"
          let a := objDelete a "command"
          let a := if jsTruthyOpt (objGet a "thinking") then objDelete a "thinking" else a
          Option.some (Json.obj a)
        | _ => Option.some (Json.obj o)
      else Option.some (Json.obj o)
    | o => o
  match action2 with
  | Option.none => Except.error "No action in response"
  | Option.some av =>
    if !jsTruthy av then Except.error "No action in response"
    else
      -- property access on a non-object yields undefined
      let fields : JsonObj := match av with | Json.obj o => o | _ => []
      -- name as an alias for type
      let f1 :=
        match objGet fields "name" with
        | Option.some nm =>
          if !jsTruthyOpt (objGet fields "type") && jsTruthy nm then objSet fields "type" nm
          else fields
        | Option.none => fields
      -- nested / shorthand formats keyed by an action-type name
      let f2 := if jsTruthyOpt (objGet f1 "type") then f1 else scanTypesAux actionTypeNames f1
      if !jsTruthyOpt (objGet f2 "type") then
        Except.error ("Invalid action format: " ++ (jsonStringifyOpt (objGet parsed "action")).take 200)
      else
        match objGet f2 "type" with
        | Option.some tv => dispatchAction f2 tv
        | Option.none =>
          Except.error ("Invalid action format: " ++ (jsonStringifyOpt (objGet parsed "action")).take 200)

/-! ## Page snapshots, URLs and step records (types.ts, snapshot.ts) -/

/-- A URL value as produced by the platform URL constructor, modelled by
its href, pathname and search components. -/
structure UrlParts where
  href : String
  pathname : String
  search : String
  deriving DecidableEq, Repr

structure InteractiveElement where
  ref : String
  role : String
  name : String
  value : Option String := Option.none
  disabled : Option Bool := Option.none
  focused : Option Bool := Option.none
  deriving DecidableEq, Repr

structure PageSnapshot where
  url : UrlParts
  title : String
  headings : List String
  navLinks : List String
  interactiveElements : List InteractiveElement
  text : String
  hasSearchBox : Bool
  hasHelpLink : Bool
  deriving DecidableEq, Repr

/-- snapshot.ts getPageKey: URL path plus primary heading. -/
def getPageKey (snapshot : PageSnapshot) : String :=
  let urlPath := snapshot.url.pathname
  let primaryHeading := match snapshot.headings with
    | [] => ""
    | h :: _ => h
  urlPath ++ "::" ++ primaryHeading

inductive ProgressLevel where
  | none
  | some
  | major
  deriving DecidableEq, Repr

structure StepResult where
  ok : Bool
  notes : String
  newUrl : Option String := Option.none
  progress : ProgressLevel
  error : Option String := Option.none
  deriving DecidableEq, Repr

structure StepErrors where
  console : List String
  network : List String
  exception : Option String := Option.none
  deriving DecidableEq, Repr

structure StepLog where
  i : Nat
  timestamp : Nat
  url : UrlParts
  pageTitle : String
  snapshot : PageSnapshot
  action : AgentAction
  result : StepResult
  screenshot : String
  errors : StepErrors
  deriving DecidableEq, Repr

structure HelpLadderState where
  phase : Nat
  stepsWithoutProgress : Int
  searchTermsUsed : List String
  helpOpened : Bool
  deriving DecidableEq, Repr

structure SuccessHints where
  mustSeeText : Option (List String) := Option.none
  mustEndOnUrlIncludes : Option (List String) := Option.none
  deriving DecidableEq, Repr

structure PreviousState where
  url : UrlParts
  title : String
  pageKey : String
  deriving DecidableEq, Repr

inductive FinalStatus where
  | success
  | fail
  | partialStat -- the source string literal is the word partial
  deriving DecidableEq, Repr

/-! ## Progress assessor (agentLoop.ts, assessProgress) -/

def assessProgress (beforeUrl afterUrl : UrlParts)
    (_previousState : Option PreviousState) : ProgressLevel :=
  let beforePath := beforeUrl.pathname
  let afterPath := afterUrl.pathname
  if beforePath ≠ afterPath then
    ProgressLevel.major
  else
    let beforeParams := beforeUrl.search
    let afterParams := afterUrl.search
    if beforeParams ≠ afterParams then
      ProgressLevel.some
    else
      ProgressLevel.none

/-! ## Help ladder (agentLoop.ts, updateHelpLadder) -/

def updateHelpLadder (ladderState : HelpLadderState) (snapshot : PageSnapshot) :
    HelpLadderState :=
  if ladderState.stepsWithoutProgress ≥ 10 && !ladderState.helpOpened && snapshot.hasHelpLink then
    { ladderState with phase := 2 }
  else if ladderState.stepsWithoutProgress ≥ 6 && snapshot.hasSearchBox then
    { ladderState with phase := 1 }
  else
    ladderState

/-- The per-progress update of stepsWithoutProgress (agentLoop.ts lines
after the step log push). -/
def updateSwp (s : Int) : ProgressLevel → Int
  | ProgressLevel.major => 0
  | ProgressLevel.none => s + 1
  | ProgressLevel.some => max 0 (s - 1)

/-! ## Success hints (agentLoop.ts, checkSuccessHints) -/

def checkSuccessHints (snapshot : PageSnapshot) (hints : SuccessHints) : Bool :=
  let seeOk :=
    match hints.mustSeeText with
    | Option.some ts =>
      if ts.isEmpty then true
      else ts.all fun t => strIncludes (strToLower snapshot.text) (strToLower t)
    | Option.none => true
  let urlOk :=
    match hints.mustEndOnUrlIncludes with
    | Option.some ps =>
      if ps.isEmpty then true
      else ps.any fun p => strIncludes (strToLower snapshot.url.href) (strToLower p)
    | Option.none => true
  seeOk && urlOk

/-! ## The decision loop (agentLoop.ts, runAgentLoop)

The loop interacts with the outside world once per iteration: the elapsed
wall clock, the page snapshot, the raw completion-service response and the
result of executing the action in the browser are all external.  They are
supplied by an oracle indexed by the step index; everything else is the
loop code itself. -/

structure AgentLoopConfig where
  goal : String
  maxSteps : Nat
  maxMinutes : Nat
  successHints : Option SuccessHints := Option.none
  deriving Repr

structure AgentLoopResult where
  steps : List StepLog
  finalStatus : FinalStatus
  reason : String
  completionEvidence : List String
  deriving DecidableEq, Repr

/-- The external inputs consumed by one loop iteration. -/
structure StepInput where
  /-- Date.now minus startTime at the top of the iteration. -/
  elapsed : Nat
  snapshot : PageSnapshot
  /-- The completion-service response, already parsed as its top-level JSON
  object; an error models a transport failure or a JSON-extraction failure
  thrown before normalization. -/
  response : Except String JsonObj
  /-- The outcome of executeAction in the browser; an error models a thrown
  exception caught by the loop. -/
  exec : Except String StepResult
  screenshot : String
  errors : StepErrors
  timestamp : Nat
  /-- The re-observed snapshot used for the post-step success-hint check. -/
  postSnapshot : PageSnapshot

/-- decideNextAction up to normalization: transport errors propagate,
otherwise the raw response is normalized (a normalization failure throws,
caught by the loop as a decision error). -/
def decideFrom (input : StepInput) : Except String AgentAction :=
  match input.response with
  | Except.error e => Except.error e
  | Except.ok parsed => normalizeAction parsed

/-- JSON.stringify of a canonical action, as interpolated into the blocked
destructive action reason (field order follows the object literals in
parseActionResponse). -/
def actionToJson : AgentAction → Json
  | AgentAction.click target =>
    Json.obj [("type", Json.str "click"), ("target", Json.str target)]
  | AgentAction.fill target value =>
    Json.obj [("type", Json.str "fill"), ("target", Json.str target), ("value", Json.str value)]
  | AgentAction.select target option =>
    Json.obj [("type", Json.str "select"), ("target", Json.str target), ("option", Json.str option)]
  | AgentAction.scroll d =>
    Json.obj [("type", Json.str "scroll"),
      ("direction", Json.str (match d with | ScrollDirection.up => "up" | ScrollDirection.down => "down"))]
  | AgentAction.back => Json.obj [("type", Json.str "back")]
  | AgentAction.wait ms => Json.obj [("type", Json.str "wait"), ("ms", Json.num ms)]
  | AgentAction.search query => Json.obj [("type", Json.str "search"), ("query", Json.str query)]
  | AgentAction.openHelp => Json.obj [("type", Json.str "openHelp")]
  | AgentAction.done reason evidenceSteps =>
    Json.obj [("type", Json.str "done"), ("reason", Json.str reason),
      ("evidenceSteps", Json.arr (evidenceSteps.map Json.num))]

def stringifyAction (a : AgentAction) : String :=
  jsonStringify (actionToJson a)

/-- The try/catch around executeAction: an exception becomes a failed,
no-progress step result. -/
def execResultOf (input : StepInput) : StepResult :=
  match input.exec with
  | Except.ok r => r
  | Except.error e =>
    { ok := false, notes := "Action failed: " ++ e,
      progress := ProgressLevel.none, error := Option.some e }

def isDoneAction : AgentAction → Bool
  | AgentAction.done _ _ => true
  | _ => false

/-- The mutable loop state threaded between iterations. -/
structure LoopState where
  steps : List StepLog
  ladder : HelpLadderState
  visitedPages : List (String × Nat)
  previousState : Option PreviousState
  finalStatus : FinalStatus
  reason : String
  completionEvidence : List String
  stepIndex : Nat
  deriving Repr

def initLoopState : LoopState where
  steps := []
  ladder := { phase := 0, stepsWithoutProgress := 0, searchTermsUsed := [], helpOpened := false }
  visitedPages := []
  previousState := Option.none
  finalStatus := FinalStatus.fail
  reason := "Unknown"
  completionEvidence := []
  stepIndex := 0

def timeoutMsOf (config : AgentLoopConfig) : Nat :=
  config.maxMinutes * 60 * 1000

/-- The visited-pages counter map update of the loop. -/
def bumpVisit (visited : List (String × Nat)) (key : String) : List (String × Nat) :=
  let count := (match visited.find? (fun kv => kv.1 == key) with
    | Option.some kv => kv.2
    | Option.none => 0) + 1
  (visited.filter fun kv => !(kv.1 == key)) ++ [(key, count)]

/-- One iteration of the for-loop body of runAgentLoop.  Returns the state
after the iteration and true when the loop continues to the next index. -/
def loopStep (config : AgentLoopConfig) (input : StepInput) (st : LoopState) :
    LoopState × Bool :=
  -- time budget check
  if input.elapsed ≥ timeoutMsOf config then
    ({ st with
        reason := "Time budget exhausted (" ++ toString config.maxMinutes ++ " minutes)",
        finalStatus := if st.steps.length > 0 then FinalStatus.partialStat else FinalStatus.fail },
      false)
  else
    let snapshot := input.snapshot
    let pageKey := getPageKey snapshot
    let st := { st with visitedPages := bumpVisit st.visitedPages pageKey }
    -- help ladder escalation
    let st := { st with ladder := updateHelpLadder st.ladder snapshot }
    -- decide next action (transport or normalization failure is fatal)
    match decideFrom input with
    | Except.error e =>
      ({ st with reason := "Decision error: " ++ e }, false)
    | Except.ok action =>
      match action with
      | AgentAction.done dreason evidenceSteps =>
        let st := { st with
          finalStatus := FinalStatus.success,
          reason := dreason,
          completionEvidence := evidenceSteps.map fun s => "step:" ++ toString s }
        let st :=
          match config.successHints with
          | Option.some hints =>
            if checkSuccessHints snapshot hints then st
            else { st with
              finalStatus := FinalStatus.partialStat,
              reason := "Agent declared done but success hints not fully satisfied" }
          | Option.none => st
        let stepLog : StepLog := {
          i := st.stepIndex, timestamp := input.timestamp,
          url := snapshot.url, pageTitle := snapshot.title,
          snapshot := snapshot, action := action,
          result := { ok := true, notes := "Agent declared task complete",
                      progress := ProgressLevel.major },
          screenshot := input.screenshot, errors := input.errors }
        ({ st with steps := st.steps ++ [stepLog] }, false)
      | _ =>
        -- destructive action gate
        if isDestructiveAction action config.goal then
          ({ st with
              reason := "Blocked destructive action: " ++ stringifyAction action,
              finalStatus := FinalStatus.fail },
            false)
        else
          -- execute; an execution exception is converted, not propagated
          let result : StepResult := execResultOf input
          let stepLog : StepLog := {
            i := st.stepIndex, timestamp := input.timestamp,
            url := snapshot.url, pageTitle := snapshot.title,
            snapshot := snapshot, action := action, result := result,
            screenshot := input.screenshot, errors := input.errors }
          let st := { st with steps := st.steps ++ [stepLog] }
          -- ladder update from progress
          let st := { st with ladder :=
            { st.ladder with
               stepsWithoutProgress := updateSwp st.ladder.stepsWithoutProgress result.progress } }
          -- hard discoverability ceiling
          if st.ladder.stepsWithoutProgress ≥ (14 : Int) then
            ({ st with
                reason := "Discoverability block: no progress for 14 steps",
                finalStatus := FinalStatus.fail },
              false)
          else
            let prev : PreviousState :=
              { url := snapshot.url, title := snapshot.title, pageKey := pageKey }
            let st := { st with previousState := Option.some prev }
            -- post-step success hint check against the re-observed page
            match config.successHints with
            | Option.some hints =>
              if checkSuccessHints input.postSnapshot hints then
                ({ st with
                    finalStatus := FinalStatus.success,
                    reason := "Success hints satisfied",
                    completionEvidence := ["step:" ++ toString st.stepIndex] },
                  false)
              else ({ st with stepIndex := st.stepIndex + 1 }, true)
            | Option.none => ({ st with stepIndex := st.stepIndex + 1 }, true)

/-- Run up to the given number of loop iterations (the for-loop bound). -/
def runLoopAux (config : AgentLoopConfig) (oracle : Nat → StepInput) :
    Nat → LoopState → LoopState
  | 0, st => st
  | Nat.succ fuel, st =>
    let r := loopStep config (oracle st.stepIndex) st
    if r.2 then runLoopAux config oracle fuel r.1 else r.1

/-- runAgentLoop: iterate up to maxSteps, then apply the step-budget
post-processing of the source. -/
def runAgentLoop (config : AgentLoopConfig) (oracle : Nat → StepInput) :
    AgentLoopResult :=
  let st := runLoopAux config oracle config.maxSteps initLoopState
  if st.steps.length ≥ config.maxSteps ∧ st.finalStatus = FinalStatus.fail then
    { steps := st.steps,
      finalStatus := FinalStatus.partialStat,
      reason := "Step budget exhausted (" ++ toString config.maxSteps ++ " steps)",
      completionEvidence := st.completionEvidence }
  else
    { steps := st.steps, finalStatus := st.finalStatus, reason := st.reason,
      completionEvidence := st.completionEvidence }

/-! ## Run evaluator (evaluator.ts) -/

inductive FindingType where
  | discoverability
  | copy
  | validation
  | bug
  | performance
  deriving DecidableEq, Repr

inductive Severity where
  | low
  | med
  | high
  deriving DecidableEq, Repr

structure FindingEvidence where
  step : Nat
  screenshot : String
  deriving DecidableEq, Repr

structure Finding where
  type : FindingType
  severity : Severity
  title : String
  details : String
  evidence : FindingEvidence
  deriving DecidableEq, Repr

structure RunMetrics where
  steps : Nat
  pageTransitions : Nat
  backtracks : Nat
  searchUsed : Bool
  stuckEvents : Nat
  consoleErrors : Nat
  failedRequests : Nat
  durationMs : Int
  deriving DecidableEq, Repr

/-- evaluator.ts detectStuckEvents inner loop: stuck count, the run-length
counter of consecutive same-key steps, and the last page key. -/
def detectStuckAux : List StepLog → Nat → Nat → String → Nat
  | [], stuckCount, _, _ => stuckCount
  | step :: rest, stuckCount, consecutiveCount, lastPageKey =>
    let pageKey := getPageKey step.snapshot
    if pageKey == lastPageKey then
      let c := consecutiveCount + 1
      if c ≥ 3 then
        -- count one stuck event and reset to avoid recounting the same stall
        detectStuckAux rest (stuckCount + 1) 0 pageKey
      else
        detectStuckAux rest stuckCount c pageKey
    else
      detectStuckAux rest stuckCount 1 pageKey

def detectStuckEvents (steps : List StepLog) : Nat :=
  if steps.length < 3 then 0
  else detectStuckAux steps 0 1 ""

/-- evaluator.ts findStuckWindows inner loop: the open window and the last
page key are threaded; windows of length at least 3 are emitted. -/
def stuckWindowsAux : List StepLog → List StepLog → String → List (List StepLog)
  | [], currentWindow, _ =>
    if currentWindow.length ≥ 3 then [currentWindow] else []
  | step :: rest, currentWindow, lastPageKey =>
    let pageKey := getPageKey step.snapshot
    if pageKey == lastPageKey then
      stuckWindowsAux rest (currentWindow ++ [step]) lastPageKey
    else
      (if currentWindow.length ≥ 3 then [currentWindow] else [])
        ++ stuckWindowsAux rest [step] pageKey

def findStuckWindows (steps : List StepLog) : List (List StepLog) :=
  stuckWindowsAux steps [] ""

/-- evaluator.ts findBacktrackSteps: steps whose page key was seen before. -/
def backtrackStepsAux : List StepLog → List String → List StepLog
  | [], _ => []
  | step :: rest, seenPages =>
    let pageKey := getPageKey step.snapshot
    if seenPages.contains pageKey then step :: backtrackStepsAux rest seenPages
    else backtrackStepsAux rest (pageKey :: seenPages)

def findBacktrackSteps (steps : List StepLog) : List StepLog :=
  backtrackStepsAux steps []

/-- evaluator.ts formatActionShort. -/
def formatActionShort (step : StepLog) : String :=
  match step.action with
  | AgentAction.click _ => "click"
  | AgentAction.fill _ _ => "fill"
  | AgentAction.select _ _ => "select"
  | AgentAction.scroll _ => "scroll"
  | AgentAction.back => "back"
  | AgentAction.wait _ => "wait"
  | AgentAction.search query => "search(\"" ++ query ++ "\")"
  | AgentAction.openHelp => "help"
  | AgentAction.done _ _ => "done"

/-- evaluator.ts calculateMetrics page-transition count over consecutive
pairs: the URL string changed and the path component changed. -/
def pageTransitionsAux : Option StepLog → List StepLog → Nat
  | _, [] => 0
  | prevStep, step :: rest =>
    let inc :=
      match prevStep with
      | Option.some p =>
        if p.url.href ≠ step.url.href ∧ p.url.pathname ≠ step.url.pathname then 1 else 0
      | Option.none => 0
    inc + pageTransitionsAux (Option.some step) rest

/-- evaluator.ts calculateMetrics backtrack count: the page-visit list is
appended unconditionally, a repeat visit increments the counter. -/
def backtracksCountAux : List String → List StepLog → Nat
  | _, [] => 0
  | pageVisits, step :: rest =>
    let pageKey := getPageKey step.snapshot
    (if pageVisits.contains pageKey then 1 else 0)
      + backtracksCountAux (pageVisits ++ [pageKey]) rest

def calculateMetrics (steps : List StepLog) : RunMetrics :=
  let durationMs : Int :=
    match steps with
    | [] => 0  -- both endpoint timestamps default to the same now value
    | s0 :: _ =>
      match steps.getLast? with
      | Option.some sl => (Int.ofNat sl.timestamp) - (Int.ofNat s0.timestamp)
      | Option.none => 0
  { steps := steps.length,
    pageTransitions := pageTransitionsAux Option.none steps,
    backtracks := backtracksCountAux [] steps,
    searchUsed := steps.any fun s =>
      match s.action with | AgentAction.search _ => true | _ => false,
    stuckEvents := detectStuckEvents steps,
    consoleErrors := (steps.map fun s => s.errors.console.length).sum,
    failedRequests := (steps.map fun s => s.errors.network.length).sum,
    durationMs := durationMs }

/-- Findings block 1: discoverability issues from stuck windows. -/
def stuckWindowFindings (steps : List StepLog) : List Finding :=
  (findStuckWindows steps).filterMap fun window =>
    if window.length ≥ 3 then
      match window with
      | firstStep :: _ =>
        Option.some {
          type := FindingType.discoverability,
          severity := if window.length ≥ 6 then Severity.high else Severity.med,
          title := "Navigation difficulty at " ++ firstStep.pageTitle,
          details := "Agent spent " ++ toString window.length
            ++ " steps on the same page (" ++ firstStep.url.href
            ++ ") without meaningful progress. Actions attempted: "
            ++ String.intercalate ", " (window.map formatActionShort),
          evidence := { step := firstStep.i, screenshot := firstStep.screenshot } }
      | [] => Option.none
    else Option.none

/-- Findings block 2: repeated searches. -/
def searchFindings (steps : List StepLog) : List Finding :=
  let searchSteps := steps.filter fun s =>
    match s.action with | AgentAction.search _ => true | _ => false
  if searchSteps.length ≥ 2 then
    let searchTerms := searchSteps.map fun s =>
      match s.action with | AgentAction.search query => query | _ => ""
    match searchSteps with
    | s0 :: _ =>
      [{ type := FindingType.discoverability,
         severity := Severity.med,
         title := "Required search to find feature",
         details := "Agent used search " ++ toString searchSteps.length
           ++ " times with terms: \"" ++ String.intercalate "\", \"" searchTerms ++ "\"",
         evidence := { step := s0.i, screenshot := s0.screenshot } }]
    | [] => []
  else []

/-- Findings block 3: excessive backtracking. -/
def backtrackFindings (steps : List StepLog) (metrics : RunMetrics) : List Finding :=
  if metrics.backtracks ≥ 3 then
    match findBacktrackSteps steps with
    | b0 :: _ =>
      [{ type := FindingType.discoverability,
         severity := if metrics.backtracks ≥ 5 then Severity.high else Severity.med,
         title := "Excessive navigation backtracking",
         details := "Agent backtracked " ++ toString metrics.backtracks
           ++ " times, suggesting unclear navigation paths.",
         evidence := { step := b0.i, screenshot := b0.screenshot } }]
    | [] => []
  else []

/-- Findings block 4: console errors. -/
def consoleErrorFindings (steps : List StepLog) (metrics : RunMetrics) : List Finding :=
  let stepsWithErrors := steps.filter fun s => s.errors.console.length > 0
  match stepsWithErrors with
  | e0 :: _ =>
    let allErrors := stepsWithErrors.flatMap fun s => s.errors.console
    [{ type := FindingType.bug,
       severity := if metrics.consoleErrors ≥ 5 then Severity.high else Severity.med,
       title := "Console errors detected (" ++ toString metrics.consoleErrors ++ " total)",
       details := "Errors include: " ++ String.intercalate "; " (allErrors.take 3)
         ++ (if allErrors.length > 3 then "..." else ""),
       evidence := { step := e0.i, screenshot := e0.screenshot } }]
  | [] => []

/-- Findings block 5: failed network requests. -/
def networkErrorFindings (steps : List StepLog) (metrics : RunMetrics) : List Finding :=
  let stepsWithNetworkErrors := steps.filter fun s => s.errors.network.length > 0
  match stepsWithNetworkErrors with
  | e0 :: _ =>
    let allNetworkErrors := stepsWithNetworkErrors.flatMap fun s => s.errors.network
    [{ type := FindingType.bug,
       severity := if metrics.failedRequests ≥ 3 then Severity.high else Severity.low,
       title := "Failed network requests (" ++ toString metrics.failedRequests ++ " total)",
       details := "Failed requests: " ++ String.intercalate "; " (allNetworkErrors.take 3)
         ++ (if allNetworkErrors.length > 3 then "..." else ""),
       evidence := { step := e0.i, screenshot := e0.screenshot } }]
  | [] => []

/-- Findings block 6: validation issues.  The filter condition reproduces
the JavaScript source exactly; note that the and-operator binds tighter
than the or-operator there, so the grouping is
(progress is some AND notes mention validation) OR notes mention error. -/
def validationFindings (steps : List StepLog) : List Finding :=
  let validationSteps := steps.filter fun s =>
    (decide (s.result.progress = ProgressLevel.some)
        && strIncludes (strToLower s.result.notes) "validation")
      || strIncludes (strToLower s.result.notes) "error"
  match validationSteps with
  | v0 :: _ =>
    [{ type := FindingType.validation,
       severity := Severity.low,
       title := "Form validation triggered",
       details := "Validation errors were encountered during the flow at "
         ++ toString validationSteps.length ++ " step(s).",
       evidence := { step := v0.i, screenshot := v0.screenshot } }]
  | [] => []

/-- Findings block 7: help ladder escalation. -/
def helpFindings (steps : List StepLog) : List Finding :=
  match steps.find? (fun s =>
      match s.action with | AgentAction.openHelp => true | _ => false) with
  | Option.some helpStep =>
    [{ type := FindingType.discoverability,
       severity := Severity.med,
       title := "Agent needed to access help",
       details := "The agent escalated to using help documentation, suggesting the feature was not easily discoverable.",
       evidence := { step := helpStep.i, screenshot := helpStep.screenshot } }]
  | Option.none => []

def severityRank : Severity → Nat
  | Severity.high => 0
  | Severity.med => 1
  | Severity.low => 2

/-- Stable insertion keeping the new finding after equal-severity ones,
modelling the stable comparator sort of the source. -/
def insertBySeverity (f : Finding) : List Finding → List Finding
  | [] => [f]
  | g :: gs =>
    if severityRank g.severity ≤ severityRank f.severity then g :: insertBySeverity f gs
    else f :: g :: gs

def sortFindings (findings : List Finding) : List Finding :=
  findings.foldl (fun acc f => insertBySeverity f acc) []

/-- evaluator.ts identifyFindings: the seven blocks in source order, sorted
by severity and truncated to the top 7. -/
def identifyFindings (steps : List StepLog) (metrics : RunMetrics) : List Finding :=
  let findings :=
    stuckWindowFindings steps
    ++ searchFindings steps
    ++ backtrackFindings steps metrics
    ++ consoleErrorFindings steps metrics
    ++ networkErrorFindings steps metrics
    ++ validationFindings steps
    ++ helpFindings steps
  (sortFindings findings).take 7

/-! ## Concrete instances used by the theorems below -/

/-- The documented flat response shape carrying an explicit type field. -/
def shapeFlatTyped (t : String) : JsonObj :=
  [("action", Json.obj [("type", Json.str "click"), ("target", Json.str t)])]

/-- The documented shorthand shape: the target string keyed by the type. -/
def shapeShorthand (t : String) : JsonObj :=
  [("action", Json.obj [("click", Json.str t)])]

/-- The documented alias-keyed flat shape using the command key. -/
def shapeAliasFlat (t : String) : JsonObj :=
  [("command", Json.str "click"), ("target", Json.str t)]

/-- The single-nested shape: a payload object keyed by the type. -/
def shapeSingleNested (t : String) : JsonObj :=
  [("action", Json.obj [("click", Json.obj [("target", Json.str t)])])]

/-- The double-nested shape: an inner action key holding the type string. -/
def shapeDoubleNested (t : String) : JsonObj :=
  [("action", Json.obj [("action", Json.str "click"), ("target", Json.str t)])]

/-- A wait response with the given ms payload. -/
def waitShape (ms : Json) : JsonObj :=
  [("action", Json.obj [("type", Json.str "wait"), ("ms", ms)])]

/-- A wait response with no ms field at all. -/
def waitShapeNoMs : JsonObj :=
  [("action", Json.obj [("type", Json.str "wait")])]

def snapPlain : PageSnapshot :=
  { url := { href := "https://example.com/a", pathname := "/a", search := "" },
    title := "A", headings := ["H"], navLinks := [], interactiveElements := [],
    text := "", hasSearchBox := false, hasHelpLink := false }

def snapHelp : PageSnapshot := { snapPlain with hasHelpLink := true }

def snapSearch : PageSnapshot := { snapPlain with hasSearchBox := true }

def scrollResponse : JsonObj :=
  [("action", Json.obj [("type", Json.str "scroll"), ("direction", Json.str "down")])]

/-- A benign step input: a scroll decision executed with no progress. -/
def baseInput (snap : PageSnapshot) : StepInput :=
  { elapsed := 0, snapshot := snap, response := Except.ok scrollResponse,
    exec := Except.ok { ok := true, notes := "Executed scroll", progress := ProgressLevel.none },
    screenshot := "", errors := { console := [], network := [] },
    timestamp := 0, postSnapshot := snap }

def cfgBrowse : AgentLoopConfig :=
  { goal := "browse the product", maxSteps := 40, maxMinutes := 6 }

def cfgBrowse14 : AgentLoopConfig :=
  { goal := "browse the product", maxSteps := 14, maxMinutes := 6 }

/-- Oracle for the phase-drop run: ten plain pages, then a page with a help
link, then a page with a search box but no help link. -/
def phaseDropOracle (i : Nat) : StepInput :=
  if i == 10 then baseInput snapHelp
  else if i == 11 then baseInput snapSearch
  else baseInput snapPlain

/-- Oracle producing no progress forever. -/
def noProgressOracle (_ : Nat) : StepInput := baseInput snapPlain

/-- A response deciding a click on the given target. -/
def clickResponse (t : String) : JsonObj :=
  [("action", Json.obj [("type", Json.str "click"), ("target", Json.str t)])]

def clickDeleteInput : StepInput :=
  { baseInput snapPlain with response := Except.ok (clickResponse "Delete my account") }

def clickUndeleteInput : StepInput :=
  { baseInput snapPlain with response := Except.ok (clickResponse "undelete") }

/-- A recorded step on the plain page. -/
def plainStep (n : Nat) : StepLog :=
  { i := n, timestamp := 0, url := snapPlain.url, pageTitle := snapPlain.title,
    snapshot := snapPlain, action := AgentAction.scroll ScrollDirection.down,
    result := { ok := true, notes := "Executed scroll", progress := ProgressLevel.none },
    screenshot := "", errors := { console := [], network := [] } }

/-- A step whose execution failed with notes mentioning the word error, and
whose progress is none (the input deciding claim C7). -/
def networkErrorStep : StepLog :=
  { plainStep 0 with
    result := { ok := false, notes := "Network error",
                progress := ProgressLevel.none, error := Option.some "Network error" } }

/-- A six-step stall trace and a seven-step stall trace on one page. -/
def stallTraceSix : List StepLog := (List.range 6).map plainStep

def stallTraceSeven : List StepLog := (List.range 7).map plainStep

/-- A done response used by the step-budget witness. -/
def doneResponse : JsonObj :=
  [("action", Json.obj [("type", Json.str "done"), ("reason", Json.str "ok")])]

def doneOracle (_ : Nat) : StepInput :=
  { baseInput snapPlain with response := Except.ok doneResponse }

def cfgBrowse2 : AgentLoopConfig :=
  { goal := "browse the product", maxSteps := 2, maxMinutes := 6 }

/-! ## Helper lemmas -/

/-- The ladder escalation only ever writes the phase field. -/
theorem uhl_swp (st : HelpLadderState) (snap : PageSnapshot) :
    (updateHelpLadder st snap).stepsWithoutProgress = st.stepsWithoutProgress := by
  unfold updateHelpLadder; split_ifs <;> rfl

theorem uhl_help (st : HelpLadderState) (snap : PageSnapshot) :
    (updateHelpLadder st snap).helpOpened = st.helpOpened := by
  unfold updateHelpLadder; split_ifs <;> rfl

theorem uhl_terms (st : HelpLadderState) (snap : PageSnapshot) :
    (updateHelpLadder st snap).searchTermsUsed = st.searchTermsUsed := by
  unfold updateHelpLadder; split_ifs <;> rfl

/-- All three cases of the no-progress counter update stay non-negative. -/
theorem updateSwp_nonneg (s : Int) (p : ProgressLevel) (h : 0 ≤ s) : 0 ≤ updateSwp s p := by
  cases p <;> simp [updateSwp] <;> omega

/-- No branch of a loop iteration writes the helpOpened flag. -/
theorem loopStep_helpOpened (config : AgentLoopConfig) (input : StepInput) (st : LoopState) :
    (loopStep config input st).1.ladder.helpOpened = st.ladder.helpOpened := by
  unfold loopStep
  repeat' split
  all_goals try simp [uhl_help]
  all_goals split_ifs <;> simp [uhl_help]

/-- No branch of a loop iteration writes the searchTermsUsed list. -/
theorem loopStep_searchTerms (config : AgentLoopConfig) (input : StepInput) (st : LoopState) :
    (loopStep config input st).1.ladder.searchTermsUsed = st.ladder.searchTermsUsed := by
  unfold loopStep
  repeat' split
  all_goals try simp [uhl_terms]
  all_goals split_ifs <;> simp [uhl_terms]

/-- One loop iteration keeps the no-progress counter non-negative. -/
theorem loopStep_swp_nonneg (config : AgentLoopConfig) (input : StepInput) (st : LoopState)
    (h : 0 ≤ st.ladder.stepsWithoutProgress) :
    0 ≤ (loopStep config input st).1.ladder.stepsWithoutProgress := by
  unfold loopStep
  repeat' split
  all_goals simp only [apply_ite LoopState.ladder, apply_ite HelpLadderState.stepsWithoutProgress,
    uhl_swp, ite_self]
  all_goals first
    | exact h
    | exact updateSwp_nonneg _ _ h
    | (split_ifs <;> first | exact h | exact updateSwp_nonneg _ _ h | simp [uhl_swp, h])
    | simp [uhl_swp, h]

/-- The whole loop keeps the no-progress counter non-negative. -/
theorem runLoopAux_swp_nonneg (config : AgentLoopConfig) (oracle : Nat → StepInput) :
    ∀ (fuel : Nat) (st : LoopState), 0 ≤ st.ladder.stepsWithoutProgress →
      0 ≤ (runLoopAux config oracle fuel st).ladder.stepsWithoutProgress := by
  intro fuel
  induction fuel with
  | zero => intro st h; exact h
  | succ n ih =>
    intro st h
    unfold runLoopAux
    by_cases hc : (loopStep config (oracle st.stepIndex) st).2 = true
    · rw [if_pos hc]
      exact ih _ (loopStep_swp_nonneg _ _ _ h)
    · rw [if_neg hc]
      exact loopStep_swp_nonneg _ _ _ h

/-! ## Claim C1 -/

/-- C1 counterexample: the claim reads the destructive test as a
case-insensitive SUBSTRING match, but the source patterns carry word
boundaries: the target undelete contains the keyword delete as a substring
(and the goal does not), yet isDestructiveAction does not block it and the
loop iteration continues normally. -/
theorem c1_counterexample :
    specDestructiveSubstring "undelete" "browse the product" = true ∧
    isDestructiveAction (AgentAction.click "undelete") "browse the product" = false ∧
    (loopStep cfgBrowse clickUndeleteInput initLoopState).2 = true := by
  decide

/-- C1 (amended): a click whose target matches one of the word-boundary
destructive keyword regexes, while the goal does not match the same regex,
makes the loop iteration terminate immediately with status fail, a reason
naming the blocked action, and no step recorded; in particular a click on
the target Delete my account is destructive against the goal browse the
product and not destructive against the goal delete my account. -/
theorem c1_blocked_click :
    (∀ (config : AgentLoopConfig) (input : StepInput) (st : LoopState) (target : String),
      input.elapsed < timeoutMsOf config →
      decideFrom input = Except.ok (AgentAction.click target) →
      isDestructiveAction (AgentAction.click target) config.goal = true →
      (loopStep config input st).2 = false ∧
      (loopStep config input st).1.finalStatus = FinalStatus.fail ∧
      (loopStep config input st).1.reason
        = "Blocked destructive action: " ++ stringifyAction (AgentAction.click target) ∧
      (loopStep config input st).1.steps = st.steps) ∧
    isDestructiveAction (AgentAction.click "Delete my account") "browse the product" = true ∧
    isDestructiveAction (AgentAction.click "Delete my account") "delete my account" = false := by
  refine ⟨?_, by decide, by decide⟩
  intro config input st target h1 h2 h3
  unfold loopStep
  rw [if_neg (by omega)]
  simp only [h2, h3, if_true]
  exact ⟨trivial, trivial, trivial, trivial⟩

/-- C1 witness: the blocked click on Delete my account with goal browse
the product, evaluated concretely. -/
theorem c1_blocked_click_witness :
    clickDeleteInput.elapsed < timeoutMsOf cfgBrowse ∧
    decideFrom clickDeleteInput = Except.ok (AgentAction.click "Delete my account") ∧
    (loopStep cfgBrowse clickDeleteInput initLoopState).2 = false ∧
    (loopStep cfgBrowse clickDeleteInput initLoopState).1.finalStatus = FinalStatus.fail ∧
    (loopStep cfgBrowse clickDeleteInput initLoopState).1.reason
      = "Blocked destructive action: " ++ stringifyAction (AgentAction.click "Delete my account") := by
  have h := (c1_blocked_click.1 cfgBrowse clickDeleteInput initLoopState "Delete my account"
    (by decide) (by rfl) (by decide))
  exact ⟨by decide, by rfl, h.1, h.2.1, h.2.2.1⟩

/-! ## Claim C2 -/

/-- C2: assessProgress returns major when the two URL paths differ, some
when the paths agree but the query strings differ, none otherwise, and its
value does not depend on the previous-state argument (it is a pure function
of the two URLs). -/
theorem c2_assessProgress (beforeUrl afterUrl : UrlParts) (ps ps2 : Option PreviousState) :
    (beforeUrl.pathname ≠ afterUrl.pathname →
      assessProgress beforeUrl afterUrl ps = ProgressLevel.major) ∧
    (beforeUrl.pathname = afterUrl.pathname → beforeUrl.search ≠ afterUrl.search →
      assessProgress beforeUrl afterUrl ps = ProgressLevel.some) ∧
    (beforeUrl.pathname = afterUrl.pathname → beforeUrl.search = afterUrl.search →
      assessProgress beforeUrl afterUrl ps = ProgressLevel.none) ∧
    assessProgress beforeUrl afterUrl ps = assessProgress beforeUrl afterUrl ps2 := by
  unfold assessProgress
  refine ⟨fun h => ?_, fun h h2 => ?_, fun h h2 => ?_, rfl⟩
  · simp [h]
  · simp [h, h2]
  · simp [h, h2]

/-- C2 witness: a concrete pair of URLs with different paths assesses as
major progress. -/
theorem c2_assessProgress_witness :
    ({ href := "https://e.com/a", pathname := "/a", search := "" } : UrlParts).pathname
      ≠ ({ href := "https://e.com/b", pathname := "/b", search := "" } : UrlParts).pathname ∧
    assessProgress { href := "https://e.com/a", pathname := "/a", search := "" }
      { href := "https://e.com/b", pathname := "/b", search := "" } Option.none
      = ProgressLevel.major :=
  ⟨by decide, (c2_assessProgress _ _ Option.none Option.none).1 (by decide)⟩

/-! ## Claim C3 -/

/-- C3 counterexample: at the empty target string every documented shape is
rejected (the falsiness check on the target throws), so the claim as
universally quantified over all target strings fails at the empty string. -/
theorem c3_counterexample :
    normalizeAction (shapeFlatTyped "") ≠ Except.ok (AgentAction.click "") ∧
    normalizeAction (shapeShorthand "") ≠ Except.ok (AgentAction.click "") ∧
    normalizeAction (shapeAliasFlat "") ≠ Except.ok (AgentAction.click "") ∧
    normalizeAction (shapeSingleNested "") ≠ Except.ok (AgentAction.click "") ∧
    normalizeAction (shapeDoubleNested "") ≠ Except.ok (AgentAction.click "") := by
  decide

/-- C3 (amended): for every NONEMPTY target string, the flat typed,
shorthand, alias-keyed flat, single-nested and double-nested response
shapes all normalize to the same canonical click action on that target. -/
theorem c3_normalizer_canonical (t : String) (ht : t ≠ "") :
    normalizeAction (shapeFlatTyped t) = Except.ok (AgentAction.click t) ∧
    normalizeAction (shapeShorthand t) = Except.ok (AgentAction.click t) ∧
    normalizeAction (shapeAliasFlat t) = Except.ok (AgentAction.click t) ∧
    normalizeAction (shapeSingleNested t) = Except.ok (AgentAction.click t) ∧
    normalizeAction (shapeDoubleNested t) = Except.ok (AgentAction.click t) := by
  have hb : (t == "") = false := by simp [ht]
  refine ⟨?_, ?_, ?_, ?_, ?_⟩ <;>
    simp [normalizeAction, shapeFlatTyped, shapeShorthand, shapeAliasFlat,
      shapeSingleNested, shapeDoubleNested, objGet, objDelete, objSet, objMerge,
      jsCoalesce, jsOrOpt, jsTruthy, jsTruthyOpt, getProp, scanTypesAux, actionTypeNames,
      applyNestedShape, dispatchAction, jsToString, hb]

/-- C3 witness: the five shapes at the concrete target btn_1. -/
theorem c3_normalizer_canonical_witness :
    ("btn_1" : String) ≠ "" ∧
    normalizeAction (shapeFlatTyped "btn_1") = Except.ok (AgentAction.click "btn_1") ∧
    normalizeAction (shapeShorthand "btn_1") = Except.ok (AgentAction.click "btn_1") ∧
    normalizeAction (shapeAliasFlat "btn_1") = Except.ok (AgentAction.click "btn_1") ∧
    normalizeAction (shapeSingleNested "btn_1") = Except.ok (AgentAction.click "btn_1") ∧
    normalizeAction (shapeDoubleNested "btn_1") = Except.ok (AgentAction.click "btn_1") := by
  have h := c3_normalizer_canonical "btn_1" (by decide)
  exact ⟨by decide, h.1, h.2.1, h.2.2.1, h.2.2.2.1, h.2.2.2.2⟩

/-! ## Claim C4 -/

/-- C4: on every recorded non-terminal step the no-progress counter is
updated exactly by updateSwp (reset on major, increment on none, decrement
floored at zero on some), and consequently it is non-negative at every
point of every run. -/
theorem c4_swp_rule :
    (∀ (config : AgentLoopConfig) (oracle : Nat → StepInput) (fuel : Nat),
      0 ≤ (runLoopAux config oracle fuel initLoopState).ladder.stepsWithoutProgress) ∧
    (∀ (config : AgentLoopConfig) (input : StepInput) (st : LoopState) (action : AgentAction),
      input.elapsed < timeoutMsOf config →
      decideFrom input = Except.ok action →
      isDoneAction action = false →
      isDestructiveAction action config.goal = false →
      (loopStep config input st).1.ladder.stepsWithoutProgress
        = updateSwp st.ladder.stepsWithoutProgress (execResultOf input).progress) := by
  constructor
  · intro config oracle fuel
    exact runLoopAux_swp_nonneg config oracle fuel initLoopState (by decide)
  · intro config input st action h1 h2 h3 h4
    unfold loopStep
    rw [if_neg (by omega)]
    simp only [h2]
    cases action <;> simp [isDoneAction] at h3 <;>
      simp only [h4, Bool.false_eq_true, if_false] <;>
      (repeat' split) <;>
      simp [apply_ite LoopState.ladder, apply_ite HelpLadderState.stepsWithoutProgress, uhl_swp]

/-- C4 witness: one concrete no-progress step applies the update rule. -/
theorem c4_swp_rule_witness :
    (baseInput snapPlain).elapsed < timeoutMsOf cfgBrowse ∧
    (loopStep cfgBrowse (baseInput snapPlain) initLoopState).1.ladder.stepsWithoutProgress
      = updateSwp initLoopState.ladder.stepsWithoutProgress
          (execResultOf (baseInput snapPlain)).progress := by
  refine ⟨by decide, ?_⟩
  exact c4_swp_rule.2 cfgBrowse (baseInput snapPlain) initLoopState
    (AgentAction.scroll ScrollDirection.down) (by decide) (by rfl) (by decide) (by decide)

/-! ## Claim C5 -/

/-- C5 counterexample: a reachable run in which the ladder phase reaches 2
(after ten no-progress steps on a page with a help link) and then drops
back to 1 on the next step (no help link, search box present), refuting
monotone-non-decreasing phase. -/
theorem c5_counterexample :
    (runLoopAux cfgBrowse phaseDropOracle 11 initLoopState).ladder.phase = 2 ∧
    (runLoopAux cfgBrowse phaseDropOracle 12 initLoopState).ladder.phase = 1 := by
  decide

/-- C5 (amended): the phase update only ever writes 1 or 2 (so an escalated
phase never returns to 0), but it is not monotone: the phase decreases
exactly when it was 2 and the phase-2 condition fails while the phase-1
condition (at least 6 no-progress steps and a search affordance) holds. -/
theorem c5_phase_behavior (st : HelpLadderState) (snap : PageSnapshot)
    (hp : st.phase ≤ 2) :
    ((updateHelpLadder st snap).phase = st.phase ∨ (updateHelpLadder st snap).phase = 1 ∨
      (updateHelpLadder st snap).phase = 2) ∧
    (1 ≤ st.phase → 1 ≤ (updateHelpLadder st snap).phase) ∧
    ((updateHelpLadder st snap).phase < st.phase →
      st.phase = 2 ∧ (updateHelpLadder st snap).phase = 1 ∧
      (6 : Int) ≤ st.stepsWithoutProgress ∧ snap.hasSearchBox = true ∧
      ¬((10 : Int) ≤ st.stepsWithoutProgress ∧ st.helpOpened = false ∧ snap.hasHelpLink = true)) := by
  unfold updateHelpLadder
  split_ifs with h1 h2 <;> simp_all <;> omega

/-- C5 witness: the phase update evaluated at the initial ladder state. -/
theorem c5_phase_behavior_witness :
    (({ phase := 0, stepsWithoutProgress := 0, searchTermsUsed := [], helpOpened := false }
        : HelpLadderState).phase ≤ 2) ∧
    ((updateHelpLadder
        { phase := 0, stepsWithoutProgress := 0, searchTermsUsed := [], helpOpened := false }
        snapPlain).phase = 0 ∨
      (updateHelpLadder
        { phase := 0, stepsWithoutProgress := 0, searchTermsUsed := [], helpOpened := false }
        snapPlain).phase = 1 ∨
      (updateHelpLadder
        { phase := 0, stepsWithoutProgress := 0, searchTermsUsed := [], helpOpened := false }
        snapPlain).phase = 2) :=
  ⟨by decide, (c5_phase_behavior _ snapPlain (by decide)).1⟩

/-! ## Claim C6 -/

/-- C6: a whole-trace stall of exactly 6 steps sharing one page-identity
key yields a stuck-event count of 2 and exactly one stuck-window
discoverability finding, of severity high; a 7-step stall also yields a
stuck-event count of 2 (not 5). -/
theorem c6_stall_counts (steps : List StepLog) (k : String) :
    (steps.length = 6 → (∀ s ∈ steps, getPageKey s.snapshot = k) →
      detectStuckEvents steps = 2 ∧
      (stuckWindowFindings steps).length = 1 ∧
      (∀ f ∈ stuckWindowFindings steps, f.severity = Severity.high)) ∧
    (steps.length = 7 → (∀ s ∈ steps, getPageKey s.snapshot = k) →
      detectStuckEvents steps = 2) := by
  constructor
  · intro h6 hk
    rcases steps with _ | ⟨s1, _ | ⟨s2, _ | ⟨s3, _ | ⟨s4, _ | ⟨s5, _ | ⟨s6, rest⟩⟩⟩⟩⟩⟩ <;>
      simp only [List.length_cons, List.length_nil] at h6 <;> try omega
    have hrest : rest = [] := by
      cases rest with
      | nil => rfl
      | cons a t => simp at h6
    subst hrest
    have k1 := hk s1 (by simp)
    have k2 := hk s2 (by simp)
    have k3 := hk s3 (by simp)
    have k4 := hk s4 (by simp)
    have k5 := hk s5 (by simp)
    have k6 := hk s6 (by simp)
    cases hb : (k == "") <;>
      simp [detectStuckEvents, detectStuckAux, stuckWindowFindings, findStuckWindows,
        stuckWindowsAux, k1, k2, k3, k4, k5, k6, hb]
  · intro h7 hk
    rcases steps with _ | ⟨s1, _ | ⟨s2, _ | ⟨s3, _ | ⟨s4, _ | ⟨s5, _ | ⟨s6, _ | ⟨s7, rest⟩⟩⟩⟩⟩⟩⟩ <;>
      simp only [List.length_cons, List.length_nil] at h7 <;> try omega
    have hrest : rest = [] := by
      cases rest with
      | nil => rfl
      | cons a t => simp at h7
    subst hrest
    have k1 := hk s1 (by simp)
    have k2 := hk s2 (by simp)
    have k3 := hk s3 (by simp)
    have k4 := hk s4 (by simp)
    have k5 := hk s5 (by simp)
    have k6 := hk s6 (by simp)
    have k7 := hk s7 (by simp)
    cases hb : (k == "") <;>
      simp [detectStuckEvents, detectStuckAux, k1, k2, k3, k4, k5, k6, k7, hb]

/-- C6 witness: concrete 6-step and 7-step stall traces on one page. -/
theorem c6_stall_counts_witness :
    stallTraceSix.length = 6 ∧ stallTraceSeven.length = 7 ∧
    detectStuckEvents stallTraceSix = 2 ∧
    (stuckWindowFindings stallTraceSix).length = 1 ∧
    (∀ f ∈ stuckWindowFindings stallTraceSix, f.severity = Severity.high) ∧
    detectStuckEvents stallTraceSeven = 2 := by
  have h6 := (c6_stall_counts stallTraceSix (getPageKey snapPlain)).1 (by decide) (by decide)
  have h7 := (c6_stall_counts stallTraceSeven (getPageKey snapPlain)).2 (by decide) (by decide)
  exact ⟨by decide, by decide, h6.1, h6.2.1, h6.2.2, h7⟩

/-! ## Claim C7 -/

/-- C7: evaluation of the evaluator at the failing input.  A trace whose
single step has progress none and notes mentioning the word error (with no
console or network entries) nevertheless produces the validation finding,
because in the source filter the and-operator binds tighter than the
or-operator; the claim (and the spec) require progress equal to some. -/
theorem c7_precedence_eval :
    networkErrorStep.result.progress = ProgressLevel.none ∧
    (validationFindings [networkErrorStep]).length = 1 ∧
    (identifyFindings [networkErrorStep] (calculateMetrics [networkErrorStep])).map
        (fun f => f.type) = [FindingType.validation] := by
  decide

/-! ## Claim C8 -/

/-- C8 counterexample: with a step budget of 14 and fourteen no-progress
steps, the discoverability ceiling terminates the loop with status fail,
but because exactly maxSteps steps were recorded the post-loop fix-up
overwrites that fail to partial with the step-budget reason. -/
theorem c8_counterexample :
    (runLoopAux cfgBrowse14 noProgressOracle 14 initLoopState).finalStatus = FinalStatus.fail ∧
    (runLoopAux cfgBrowse14 noProgressOracle 14 initLoopState).reason
      = "Discoverability block: no progress for 14 steps" ∧
    (runAgentLoop cfgBrowse14 noProgressOracle).finalStatus = FinalStatus.partialStat ∧
    (runAgentLoop cfgBrowse14 noProgressOracle).reason = "Step budget exhausted (14 steps)" := by
  decide

/-- C8 (amended): the loop outcome is preserved by the post-loop fix-up
whenever fewer than maxSteps steps were recorded or the status is not fail;
the partial step-budget rewrite fires exactly when maxSteps steps were
recorded and the status is fail, which can also rewrite a fail set by the
discoverability ceiling on the final iteration. -/
theorem c8_budget_fixup (config : AgentLoopConfig) (oracle : Nat → StepInput) :
    ((runLoopAux config oracle config.maxSteps initLoopState).steps.length < config.maxSteps →
      (runAgentLoop config oracle).finalStatus
          = (runLoopAux config oracle config.maxSteps initLoopState).finalStatus ∧
      (runAgentLoop config oracle).reason
          = (runLoopAux config oracle config.maxSteps initLoopState).reason) ∧
    ((runLoopAux config oracle config.maxSteps initLoopState).finalStatus ≠ FinalStatus.fail →
      (runAgentLoop config oracle).finalStatus
          = (runLoopAux config oracle config.maxSteps initLoopState).finalStatus ∧
      (runAgentLoop config oracle).reason
          = (runLoopAux config oracle config.maxSteps initLoopState).reason) ∧
    (config.maxSteps ≤ (runLoopAux config oracle config.maxSteps initLoopState).steps.length →
      (runLoopAux config oracle config.maxSteps initLoopState).finalStatus = FinalStatus.fail →
      (runAgentLoop config oracle).finalStatus = FinalStatus.partialStat ∧
      (runAgentLoop config oracle).reason
          = "Step budget exhausted (" ++ toString config.maxSteps ++ " steps)") := by
  unfold runAgentLoop
  refine ⟨fun h => ?_, fun h => ?_, fun h h2 => ?_⟩
  · rw [if_neg]; · exact ⟨rfl, rfl⟩
    intro hc; omega
  · rw [if_neg]; · exact ⟨rfl, rfl⟩
    intro hc; exact h hc.2
  · rw [if_pos ⟨h, h2⟩]; exact ⟨rfl, rfl⟩

/-- C8 witness: a run ending in success (done on the first step, below the
budget) keeps its status through the fix-up. -/
theorem c8_budget_fixup_witness :
    (runLoopAux cfgBrowse2 doneOracle cfgBrowse2.maxSteps initLoopState).finalStatus
        ≠ FinalStatus.fail ∧
    (runAgentLoop cfgBrowse2 doneOracle).finalStatus = FinalStatus.success :=
  ⟨by decide, by
    have h := (c8_budget_fixup cfgBrowse2 doneOracle).2.1 (by decide)
    rw [h.1]; decide⟩

/-! ## Claim C9 -/

/-- C9 counterexample: a numeric ms of 0 lies below 100, so the claim says
it is raised to 100; the source expression treats 0 as falsy and falls back
to the 1000 default instead. -/
theorem c9_counterexample :
    normalizeAction (waitShape (Json.num 0)) = Except.ok (AgentAction.wait 1000) ∧
    ¬ normalizeAction (waitShape (Json.num 0)) = Except.ok (AgentAction.wait 100) := by
  decide

/-- C9 (amended): a wait payload with numeric ms clamps every NONZERO value
into the closed interval 100 to 5000, maps the numeric value 0 (falsy, like
an unparsable value) to the 1000 default, yields a result always inside the
interval, and defaults to 1000 when ms is absent. -/
theorem c9_wait_clamp (n : Int) :
    normalizeAction (waitShape (Json.num n))
        = Except.ok (AgentAction.wait (if n = 0 then 1000 else min 5000 (max 100 n))) ∧
    (100 : Int) ≤ (if n = 0 then 1000 else min 5000 (max 100 n)) ∧
    (if n = 0 then (1000 : Int) else min 5000 (max 100 n)) ≤ 5000 ∧
    normalizeAction waitShapeNoMs = Except.ok (AgentAction.wait 1000) := by
  refine ⟨?_, ?_, ?_, by decide⟩
  · by_cases h : n = 0
    · subst h; decide
    · have hb : (n == 0) = false := by simp [h]
      simp [normalizeAction, waitShape, objGet, jsCoalesce, jsTruthy, jsTruthyOpt,
        jsOrOpt, dispatchAction, jsNumberOrDefault, jsNumber, hb, h, scanTypesAux]
  · by_cases h : n = 0
    · simp [h]
    · simp [h, min_def, max_def]; split_ifs <;> omega
  · by_cases h : n = 0
    · simp [h]
    · simp [h, min_def, max_def]; split_ifs <;> omega

/-! ## Claim C10 -/

/-- C10: throughout every run (any oracle, any iteration count) the ladder
state never sets helpOpened and never records a search term: both fields
keep their initial values, so the phase-2 guard on helpOpened is satisfied
at every step. -/
theorem c10_ladder_never_escalates (config : AgentLoopConfig) (oracle : Nat → StepInput)
    (fuel : Nat) :
    (runLoopAux config oracle fuel initLoopState).ladder.helpOpened = false ∧
    (runLoopAux config oracle fuel initLoopState).ladder.searchTermsUsed = [] := by
  suffices h : ∀ (f : Nat) (st : LoopState),
      st.ladder.helpOpened = false → st.ladder.searchTermsUsed = [] →
      (runLoopAux config oracle f st).ladder.helpOpened = false ∧
      (runLoopAux config oracle f st).ladder.searchTermsUsed = [] by
    exact h fuel initLoopState (by decide) (by decide)
  intro f
  induction f with
  | zero => intro st h1 h2; exact ⟨h1, h2⟩
  | succ n ih =>
    intro st h1 h2
    unfold runLoopAux
    by_cases hc : (loopStep config (oracle st.stepIndex) st).2 = true
    · rw [if_pos hc]
      exact ih _ (by rw [loopStep_helpOpened]; exact h1) (by rw [loopStep_searchTerms]; exact h2)
    · rw [if_neg hc]
      exact ⟨by rw [loopStep_helpOpened]; exact h1, by rw [loopStep_searchTerms]; exact h2⟩

end ColdAgent
